import Mathlib

/-!
Shallow embedding of the UK CGT compliance engine
(`backend/core/models.py`, `backend/core/services/compliance.py`,
`backend/core/services/reporting.py`).

Conventions of the embedding:
* Python `Decimal` arithmetic is modelled with `ℚ` (exact rational
  arithmetic; every quantity in the source scenarios is exact).
* Dates are modelled as day numbers in `ℤ`; `timedelta(days=30)` is `+ 30`.
* The per-holding transaction table is a `List Transaction`; the single
  field `tid` models both the primary key used by `.exclude(id=...)` and the
  `created_at` creation-order tiebreak (the two increase together).  The
  table is taken enumerated in `(trade_date, created_at)` ascending order —
  the order every database query of the engine uses; theorems that depend
  on this ordering carry a `DBSorted` hypothesis.
* Django's eager persistence (`pool.save()` inside `add_purchase` /
  `remove_disposal`, `DisposalMatch.objects.create`) is modelled by
  threading the committed state through the replay; the `insufficientPool`
  outcome carries the state that is left committed when the `ValueError`
  escapes `process_transactions_for_holding`, which opens no transaction
  boundary of its own.
-/

namespace ApexCGT

/-- Transaction side, from `Transaction.SIDE_CHOICES`. -/
inductive Side where
  | BUY
  | SELL
deriving DecidableEq, Repr

/-- One row of the `Transaction` table restricted to the fields the
compliance engine reads: `trade_date`, `qty`, `price`, `fees`, `side`,
and `tid` standing for both `id` and the `created_at` ordering key. -/
structure Transaction where
  tid : Nat
  side : Side
  trade_date : ℤ
  qty : ℚ
  price : ℚ
  fees : ℚ
deriving DecidableEq, Repr

/-- State of `Section104Pool`: `pooled_qty` and `pooled_cost`. -/
structure Section104Pool where
  pooled_qty : ℚ
  pooled_cost : ℚ
deriving DecidableEq, Repr

/-- Embedding of `Section104Pool.avg_cost`: `pooled_cost / pooled_qty`
if `pooled_qty > 0`, else `0`. -/
def Section104Pool.avg_cost (p : Section104Pool) : ℚ :=
  if 0 < p.pooled_qty then p.pooled_cost / p.pooled_qty else 0

/-- Embedding of `Section104Pool.add_purchase`: `pooled_qty += qty`;
`pooled_cost += qty * price + fees`. -/
def Section104Pool.add_purchase (p : Section104Pool) (qty price fees : ℚ) :
    Section104Pool :=
  { pooled_qty := p.pooled_qty + qty
    pooled_cost := p.pooled_cost + (qty * price + fees) }

/-- Embedding of `Section104Pool.remove_disposal`: `none` models the
`ValueError("Cannot dispose more than available in pool")` raised when
`qty > pooled_qty`; otherwise the average cost is captured before the
mutation and returned together with the mutated pool. -/
def Section104Pool.remove_disposal (p : Section104Pool) (qty : ℚ) :
    Option (ℚ × Section104Pool) :=
  if p.pooled_qty < qty then none
  else
    let avg := p.avg_cost
    some (avg, { pooled_qty := p.pooled_qty - qty
                 pooled_cost := p.pooled_cost - qty * avg })

/-- One persisted `DisposalMatch` row (created only for 30-day matches). -/
structure DisposalMatch where
  sell_tid : Nat
  buy_tid : Nat
  qty_matched : ℚ
  disallowed_loss : ℚ
deriving DecidableEq, Repr

/-- Tag recording which matching step produced an entry of
`disposal_info['matches']`. -/
inductive MatchKind where
  | same_day
  | thirty_day
deriving DecidableEq, Repr

/-- One entry of `disposal_info['matches']`: the matched buy, the quantity
consumed, the chunk's gain/loss, and its disallowed part (`0` for
same-day entries, which the source stores with no disallowed amount). -/
structure MatchInfo where
  kind : MatchKind
  buy_tid : Nat
  buy_price : ℚ
  qty : ℚ
  gain_loss : ℚ
  disallowed_loss : ℚ
deriving DecidableEq, Repr

/-- The `disposal_info` dict built by `ComplianceEngine._process_disposal`. -/
structure DisposalInfo where
  tid : Nat
  total_qty : ℚ
  matched_qty : ℚ
  section104_qty : ℚ
  section104_avg_cost : Option ℚ
  total_gain_loss : ℚ
  disallowed_loss : ℚ
  matchInfos : List MatchInfo
deriving DecidableEq, Repr

/-- Embedding of `ComplianceEngine._calculate_gain_loss`. -/
def calculate_gain_loss (sell_price buy_price qty : ℚ) : ℚ :=
  (sell_price - buy_price) * qty

/-- Embedding of `ComplianceEngine._find_same_day_matches`: BUY rows of
the holding with the disposal's `trade_date`, excluding the disposal
itself, in `created_at` order (the table is enumerated in query order,
so the filter preserves it). -/
def find_same_day_matches (db : List Transaction) (sell : Transaction) :
    List Transaction :=
  db.filter fun t =>
    decide (t.side = Side.BUY ∧ t.trade_date = sell.trade_date ∧ t.tid ≠ sell.tid)

/-- Embedding of `ComplianceEngine._find_thirty_day_matches`: BUY rows
with `sell.trade_date < trade_date ≤ sell.trade_date + 30`, in
`(trade_date, created_at)` order. -/
def find_thirty_day_matches (db : List Transaction) (sell : Transaction) :
    List Transaction :=
  db.filter fun t =>
    decide (t.side = Side.BUY ∧ sell.trade_date < t.trade_date ∧
      t.trade_date ≤ sell.trade_date + 30)

/-- Step 1 of `_process_disposal`: the same-day `for` loop with its
`remaining_qty <= 0` break.  Returns the match entries and the remaining
quantity. -/
def sameDayLoop (sell_price : ℚ) :
    List Transaction → ℚ → List MatchInfo × ℚ
  | [], remaining => ([], remaining)
  | b :: bs, remaining =>
    if remaining ≤ 0 then ([], remaining)
    else
      let mq := min remaining b.qty
      let gl := calculate_gain_loss sell_price b.price mq
      let res := sameDayLoop sell_price bs (remaining - mq)
      (⟨MatchKind.same_day, b.tid, b.price, mq, gl, 0⟩ :: res.1, res.2)

/-- Step 2 of `_process_disposal`: the 30-day `for` loop.  Besides the
match entries and the remaining quantity it returns the `DisposalMatch`
rows it persists (one per 30-day match, created before the Section 104
step can fail). -/
def thirtyDayLoop (sell_tid : Nat) (sell_price : ℚ) :
    List Transaction → ℚ → List MatchInfo × List DisposalMatch × ℚ
  | [], remaining => ([], [], remaining)
  | b :: bs, remaining =>
    if remaining ≤ 0 then ([], [], remaining)
    else
      let mq := min remaining b.qty
      let gl := calculate_gain_loss sell_price b.price mq
      let dl := if gl < 0 then |gl| else 0
      let res := thirtyDayLoop sell_tid sell_price bs (remaining - mq)
      (⟨MatchKind.thirty_day, b.tid, b.price, mq, gl, dl⟩ :: res.1,
        ⟨sell_tid, b.tid, mq, dl⟩ :: res.2.1, res.2.2)

/-- Output of step 1 of `_process_disposal` for one disposal. -/
def sameDayPhase (db : List Transaction) (sell : Transaction) :
    List MatchInfo × ℚ :=
  sameDayLoop sell.price (find_same_day_matches db sell) sell.qty

/-- Output of step 2 of `_process_disposal`: the 30-day loop runs only
when step 1 left a positive remainder (`if remaining_qty > 0`). -/
def thirtyDayPhase (db : List Transaction) (sell : Transaction) :
    List MatchInfo × List DisposalMatch × ℚ :=
  if 0 < (sameDayPhase db sell).2 then
    thirtyDayLoop sell.tid sell.price (find_thirty_day_matches db sell)
      (sameDayPhase db sell).2
  else ([], [], (sameDayPhase db sell).2)

/-- Quantity still unmatched after steps 1 and 2 of `_process_disposal`
(what step 3 has to take from the Section 104 pool). -/
def matchRemainder (db : List Transaction) (sell : Transaction) : ℚ :=
  (thirtyDayPhase db sell).2.2

/-- Contents of `disposal_info['matches']` for one disposal: the same-day
entries followed by the 30-day entries. -/
def disposalMatchInfos (db : List Transaction) (sell : Transaction) :
    List MatchInfo :=
  (sameDayPhase db sell).1 ++ (thirtyDayPhase db sell).1

/-- Result of `_process_disposal`.  `insufficientPool` models the
`ValueError("Insufficient shares in Section 104 pool for disposal")`;
it carries the `DisposalMatch` rows already persisted by step 2. -/
inductive DisposalOutcome where
  | ok (info : DisposalInfo) (recs : List DisposalMatch) (pool : Section104Pool)
  | insufficientPool (recs : List DisposalMatch)
deriving DecidableEq, Repr

/-- Holds exactly when `_process_disposal` raised the insufficient-pool
error. -/
def DisposalOutcome.raisesInsufficient : DisposalOutcome → Bool
  | .insufficientPool _ => true
  | _ => false

/-- Embedding of `ComplianceEngine._process_disposal`: same-day matching,
then 30-day matching, then the Section 104 pool for any positive
remainder. -/
def process_disposal (db : List Transaction) (sell : Transaction)
    (pool : Section104Pool) : DisposalOutcome :=
  let allMatches := disposalMatchInfos db sell
  let matched_qty := (allMatches.map fun m => m.qty).sum
  let disallowed := ((thirtyDayPhase db sell).1.map fun m => m.disallowed_loss).sum
  let recs := (thirtyDayPhase db sell).2.1
  let remaining := matchRemainder db sell
  if 0 < remaining then
    if pool.pooled_qty < remaining then .insufficientPool recs
    else
      match pool.remove_disposal remaining with
      | none => .insufficientPool recs
      | some (avg, pool2) =>
        .ok
          ⟨sell.tid, sell.qty, matched_qty, remaining, some avg,
            (allMatches.map fun m => m.gain_loss).sum +
              calculate_gain_loss sell.price avg remaining,
            disallowed, allMatches⟩
          recs pool2
  else
    .ok
      ⟨sell.tid, sell.qty, matched_qty, 0, none,
        (allMatches.map fun m => m.gain_loss).sum, disallowed, allMatches⟩
      recs pool

/-- Committed per-holding state threaded through a replay: the persisted
pool, the disposal results accumulated so far, and the persisted
`DisposalMatch` table rows. -/
structure EngineState where
  pool : Section104Pool
  disposals : List DisposalInfo
  table : List DisposalMatch
deriving DecidableEq, Repr

/-- Result of `process_transactions_for_holding`.  `insufficientPool`
carries the state left committed when the error escapes (the function has
no transaction boundary: every pool save and every `DisposalMatch` row
created before the failing disposal stays persisted). -/
inductive ReplayOutcome where
  | ok (s : EngineState)
  | insufficientPool (committed : EngineState)
deriving DecidableEq, Repr

/-- Replay loop of `process_transactions_for_holding`: BUYs go into the
pool in full; SELLs run `_process_disposal` against the full table `db`. -/
def replayAux (db : List Transaction) :
    List Transaction → EngineState → ReplayOutcome
  | [], s => .ok s
  | t :: rest, s =>
    match t.side with
    | Side.BUY =>
      replayAux db rest
        { s with pool := s.pool.add_purchase t.qty t.price t.fees }
    | Side.SELL =>
      match process_disposal db t s.pool with
      | .ok info recs pool2 =>
        replayAux db rest
          { pool := pool2, disposals := s.disposals ++ [info],
            table := s.table ++ recs }
      | .insufficientPool recs =>
        .insufficientPool { s with table := s.table ++ recs }

/-- Embedding of `ComplianceEngine.process_transactions_for_holding`:
replays the holding's table in `(trade_date, created_at)` order starting
from the pool returned by `get_or_create` (`pool0`; the pre-existing
persisted pool when one exists, `⟨0, 0⟩` for a fresh holding). -/
def process_transactions_for_holding (db : List Transaction)
    (pool0 : Section104Pool) : ReplayOutcome :=
  replayAux db db ⟨pool0, [], []⟩

/-- Property that the table is enumerated in `(trade_date, created_at)`
ascending order, with distinct ids. -/
def DBSorted (db : List Transaction) : Prop :=
  db.Pairwise fun a b =>
    a.trade_date < b.trade_date ∨ (a.trade_date = b.trade_date ∧ a.tid < b.tid)

instance : DecidablePred DBSorted := fun db =>
  inferInstanceAs (Decidable (db.Pairwise _))

/-- Total quantity of the acquisition `buy_tid` consumed by matches
across all disposal results of a replay. -/
def consumedFrom (s : EngineState) (buy_tid : Nat) : ℚ :=
  (s.disposals.map fun d =>
    ((d.matchInfos.filter fun m => decide (m.buy_tid = buy_tid)).map
      fun m => m.qty).sum).sum

/-- EngineState of a successful replay, if any. -/
def okState : ReplayOutcome → Option EngineState
  | .ok s => some s
  | .insufficientPool _ => none

/-- Quantity the Section 104 step of `_process_disposal` removes from the
pool for one disposal (zero when same-day and 30-day matching already
absorbed the whole disposal). -/
def poolRemoval (db : List Transaction) (t : Transaction) : ℚ :=
  if 0 < matchRemainder db t then matchRemainder db t else 0

/-- Net pooled-quantity change a replay applies for a sublist `l` of the
table `db`: each BUY adds its full quantity, each SELL removes its
Section 104 portion.  Depends on the transaction table only, not on the
pool the replay starts from. -/
def qtyDelta (db l : List Transaction) : ℚ :=
  (l.map fun t =>
    match t.side with
    | Side.BUY => t.qty
    | Side.SELL => -poolRemoval db t).sum

/-- Normalisation of one transaction that zeroes the `fees` of SELL rows
(the engine never reads them) and keeps BUY rows unchanged. -/
def scrubTx (t : Transaction) : Transaction :=
  match t.side with
  | Side.SELL => { t with fees := 0 }
  | Side.BUY => t

/-- Table with the `fees` of every SELL row zeroed: two tables with the
same scrub differ at most in SELL fees. -/
def scrubSellFees (db : List Transaction) : List Transaction :=
  db.map scrubTx

/-! Reporting (`CGTReportGenerator` in `reporting.py`). -/

/-- Data of one `DisposalMatch` row as `_calculate_disposal_details`
reads it: `qty_matched`, the matched buy's price (the `cost` key), and
the row's `disallowed_loss`. -/
structure ReportMatch where
  qty : ℚ
  cost : ℚ
  disallowed_loss : ℚ
deriving DecidableEq, Repr

/-- Fields of the disposal dict built by
`CGTReportGenerator._calculate_disposal_details` that the totals
calculation reads. -/
structure ReportDisposal where
  disposal_proceeds : ℚ
  total_cost : ℚ
  gain_loss : ℚ
  disallowed_loss : ℚ
  allowable_loss : ℚ
deriving DecidableEq, Repr

/-- Embedding of `CGTReportGenerator._calculate_disposal_details` for a
SELL of `qty` at `price`, its persisted 30-day match rows, and the
holding's pool (`none` when `Section104Pool.DoesNotExist`). -/
def calculate_disposal_details (qty price : ℚ) (ms : List ReportMatch)
    (pool : Option Section104Pool) : ReportDisposal :=
  let proceeds := qty * price
  let matched_qty := (ms.map fun m => m.qty).sum
  let disallowed := (ms.map fun m => m.disallowed_loss).sum
  let remaining := qty - matched_qty
  let s104cost :=
    match pool with
    | some p => if 0 < remaining then remaining * p.avg_cost else 0
    | none => 0
  let total_cost := (ms.map fun m => m.cost * m.qty).sum + s104cost
  let gl := proceeds - total_cost
  ⟨proceeds, total_cost, gl, disallowed, gl + disallowed⟩

/-- Totals dict of `CGTReportGenerator._calculate_totals`. -/
structure ReportTotals where
  total_disposals : Nat
  total_proceeds : ℚ
  total_cost : ℚ
  gross_gains : ℚ
  gross_losses : ℚ
  disallowed_losses : ℚ
  net_gains : ℚ
  annual_exempt_amount : ℚ
  taxable_gains : ℚ
  carry_forward_losses : ℚ
deriving DecidableEq, Repr

/-- Body of the `for disposal in disposals` loop of `_calculate_totals`. -/
def totalsStep (t : ReportTotals) (d : ReportDisposal) : ReportTotals :=
  { t with
    total_proceeds := t.total_proceeds + d.disposal_proceeds
    total_cost := t.total_cost + d.total_cost
    disallowed_losses := t.disallowed_losses + d.disallowed_loss
    gross_gains :=
      if 0 < d.allowable_loss then t.gross_gains + d.allowable_loss
      else t.gross_gains
    gross_losses :=
      if 0 < d.allowable_loss then t.gross_losses
      else t.gross_losses + |d.allowable_loss| }

/-- Embedding of `CGTReportGenerator._calculate_totals`: accumulate the
per-disposal loop, then compute net gains, then apply the Annual Exempt
Amount. -/
def calculate_totals (aea : ℚ) (ds : List ReportDisposal) : ReportTotals :=
  let base := ds.foldl totalsStep ⟨ds.length, 0, 0, 0, 0, 0, 0, aea, 0, 0⟩
  let net := base.gross_gains - base.gross_losses
  if 0 < net then
    { base with net_gains := net, taxable_gains := max 0 (net - aea) }
  else
    { base with net_gains := net, carry_forward_losses := |net| }

end ApexCGT

namespace ApexCGT

/-- C1: refuted by the code at Scenario D (same-day BUY 100@10.00 and
SELL 50@12.00 on the identical date).  The engine matches 50 same-day
with `section104_qty = 0`, but the full BUY of 100 still enters the
Section 104 pool — `add_purchase` is called with the full `tx.qty` of
every BUY and no unconsumed-quantity bookkeeping exists — so the final
pool quantity is 100, not the 50 the claim (and the repository's own
`test_same_day_matching`) states. -/
theorem c1_sameDay_matched_shares_still_pooled :
    process_transactions_for_holding
        [⟨0, Side.BUY, 5, 100, 10, 0⟩, ⟨1, Side.SELL, 5, 50, 12, 0⟩] ⟨0, 0⟩ =
      ReplayOutcome.ok
        ⟨⟨100, 1000⟩,
          [⟨1, 50, 50, 0, none, 100, 0,
            [⟨MatchKind.same_day, 0, 10, 50, 100, 0⟩]⟩],
          []⟩ ∧
    (100 : ℚ) ≠ 50 := by
  refine ⟨?_, by norm_num⟩
  norm_num [process_transactions_for_holding, replayAux, process_disposal,
    disposalMatchInfos, sameDayPhase, thirtyDayPhase, matchRemainder,
    sameDayLoop, thirtyDayLoop, find_same_day_matches, find_thirty_day_matches,
    Section104Pool.add_purchase, Section104Pool.remove_disposal,
    Section104Pool.avg_cost, calculate_gain_loss, min_def, List.filter]

/-- C2: refuted by the code.  With a BUY of 100 and two same-day SELLs of
60 each, both disposals match against the same acquisition in full — the
match finders re-offer every BUY's whole `qty` to every disposal, since
no per-acquisition unconsumed quantity is tracked — so the total quantity
consumed from the single BUY of 100 is 120. -/
theorem c2_buy_consumed_beyond_its_quantity :
    (okState (process_transactions_for_holding
        [⟨0, Side.BUY, 5, 100, 10, 0⟩, ⟨1, Side.SELL, 5, 60, 12, 0⟩,
          ⟨2, Side.SELL, 5, 60, 12, 0⟩] ⟨0, 0⟩)).map
        (fun s => consumedFrom s 0) = some 120 ∧
    (100 : ℚ) < 120 := by
  refine ⟨?_, by norm_num⟩
  norm_num [process_transactions_for_holding, replayAux, process_disposal,
    disposalMatchInfos, sameDayPhase, thirtyDayPhase, matchRemainder,
    sameDayLoop, thirtyDayLoop, find_same_day_matches, find_thirty_day_matches,
    Section104Pool.add_purchase, Section104Pool.remove_disposal,
    Section104Pool.avg_cost, calculate_gain_loss, min_def, List.filter,
    okState, consumedFrom]

/-- C3: the pool operations satisfy the claimed contract.
`add_purchase qty price fees` adds `qty` to `pooled_qty` and
`qty * price + fees` to `pooled_cost`; `remove_disposal qty` under
`qty ≤ pooled_qty` succeeds, returns the average cost in effect before
the mutation, and subtracts `qty` and `qty * avg_cost`; `avg_cost` is
`pooled_cost / pooled_qty` for a positive pool and `0` otherwise; and
Scenario A (BUY 100@10.00 fee 1.00 then BUY 100@20.00 fee 1.00 from an
empty pool) yields quantity 200, cost 3002.00, average cost 15.01. -/
theorem c3_pool_operations_spec (p : Section104Pool) (q pr f q2 : ℚ)
    (hq : q2 ≤ p.pooled_qty) :
    (p.add_purchase q pr f).pooled_qty = p.pooled_qty + q ∧
    (p.add_purchase q pr f).pooled_cost = p.pooled_cost + (q * pr + f) ∧
    p.remove_disposal q2 =
      some (p.avg_cost,
        ⟨p.pooled_qty - q2, p.pooled_cost - q2 * p.avg_cost⟩) ∧
    (0 < p.pooled_qty → p.avg_cost = p.pooled_cost / p.pooled_qty) ∧
    (¬0 < p.pooled_qty → p.avg_cost = 0) ∧
    ((Section104Pool.mk 0 0).add_purchase 100 10 1).add_purchase 100 20 1 =
      ⟨200, 3002⟩ ∧
    (((Section104Pool.mk 0 0).add_purchase 100 10 1).add_purchase
      100 20 1).avg_cost = 1501 / 100 := by
  refine ⟨rfl, rfl, ?_, ?_, ?_, ?_, ?_⟩
  · rw [Section104Pool.remove_disposal, if_neg (not_lt.mpr hq)]
  · intro h
    rw [Section104Pool.avg_cost, if_pos h]
  · intro h
    rw [Section104Pool.avg_cost, if_neg h]
  · norm_num [Section104Pool.add_purchase]
  · norm_num [Section104Pool.add_purchase, Section104Pool.avg_cost]

/-- Witness for C3 at the pool `⟨100, 1000⟩` with a removal of 50. -/
theorem c3_pool_operations_spec_witness :
    (50 : ℚ) ≤ (Section104Pool.mk 100 1000).pooled_qty ∧
    (((Section104Pool.mk 100 1000).add_purchase 1 2 0).pooled_qty =
        (Section104Pool.mk 100 1000).pooled_qty + 1 ∧
      ((Section104Pool.mk 100 1000).add_purchase 1 2 0).pooled_cost =
        (Section104Pool.mk 100 1000).pooled_cost + (1 * 2 + 0) ∧
      (Section104Pool.mk 100 1000).remove_disposal 50 =
        some ((Section104Pool.mk 100 1000).avg_cost,
          ⟨(Section104Pool.mk 100 1000).pooled_qty - 50,
            (Section104Pool.mk 100 1000).pooled_cost -
              50 * (Section104Pool.mk 100 1000).avg_cost⟩) ∧
      (0 < (Section104Pool.mk 100 1000).pooled_qty →
        (Section104Pool.mk 100 1000).avg_cost =
          (Section104Pool.mk 100 1000).pooled_cost /
            (Section104Pool.mk 100 1000).pooled_qty) ∧
      (¬0 < (Section104Pool.mk 100 1000).pooled_qty →
        (Section104Pool.mk 100 1000).avg_cost = 0) ∧
      ((Section104Pool.mk 0 0).add_purchase 100 10 1).add_purchase 100 20 1 =
        ⟨200, 3002⟩ ∧
      (((Section104Pool.mk 0 0).add_purchase 100 10 1).add_purchase
        100 20 1).avg_cost = 1501 / 100) :=
  ⟨by norm_num, c3_pool_operations_spec ⟨100, 1000⟩ 1 2 0 50 (by norm_num)⟩

/-- C5: refuted by the code.  `process_transactions_for_holding` opens no
transaction boundary and every mutation is saved eagerly, so a failing
disposal leaves the earlier mutations committed.  First input: BUY 100
then an oversized SELL — the error escapes with the pool already at
quantity 100, not the pre-replay ⟨0, 0⟩.  Second input: a SELL matched
30-day by a later BUY but exceeding the pool — the error escapes with
the disposal's `DisposalMatch` row already persisted. -/
theorem c5_failed_replay_leaves_partial_state :
    process_transactions_for_holding
        [⟨0, Side.BUY, 1, 100, 10, 0⟩, ⟨1, Side.SELL, 2, 150, 12, 0⟩] ⟨0, 0⟩ =
      ReplayOutcome.insufficientPool ⟨⟨100, 1000⟩, [], []⟩ ∧
    (Section104Pool.mk 100 1000) ≠ ⟨0, 0⟩ ∧
    process_transactions_for_holding
        [⟨0, Side.SELL, 10, 100, 5, 0⟩, ⟨1, Side.BUY, 15, 30, 6, 0⟩] ⟨0, 0⟩ =
      ReplayOutcome.insufficientPool ⟨⟨0, 0⟩, [], [⟨0, 1, 30, 30⟩]⟩ ∧
    ([⟨0, 1, 30, 30⟩] : List DisposalMatch) ≠ [] := by
  refine ⟨?_, by simp, ?_, by simp⟩
  · norm_num [process_transactions_for_holding, replayAux, process_disposal,
      disposalMatchInfos, sameDayPhase, thirtyDayPhase, matchRemainder,
      sameDayLoop, thirtyDayLoop, find_same_day_matches,
      find_thirty_day_matches, Section104Pool.add_purchase,
      Section104Pool.remove_disposal, Section104Pool.avg_cost,
      calculate_gain_loss, min_def, List.filter]
  · norm_num [process_transactions_for_holding, replayAux, process_disposal,
      disposalMatchInfos, sameDayPhase, thirtyDayPhase, matchRemainder,
      sameDayLoop, thirtyDayLoop, find_same_day_matches,
      find_thirty_day_matches, Section104Pool.add_purchase,
      Section104Pool.remove_disposal, Section104Pool.avg_cost,
      calculate_gain_loss, min_def, List.filter]

end ApexCGT

namespace ApexCGT

/-- C4: `_process_disposal` raises the insufficient-pool error exactly
when the quantity left after same-day and 30-day matching exceeds
`pooled_qty` (for any pool with non-negative quantity, as every reachable
pool has); when the remainder fits in the pool no error is raised. -/
theorem c4_insufficient_pool_iff (db : List Transaction) (sell : Transaction)
    (pool : Section104Pool) (hp : 0 ≤ pool.pooled_qty) :
    (process_disposal db sell pool).raisesInsufficient = true ↔
      pool.pooled_qty < matchRemainder db sell := by
  by_cases h1 : 0 < matchRemainder db sell
  · by_cases h2 : pool.pooled_qty < matchRemainder db sell
    · simp [process_disposal, if_pos h1, if_pos h2,
        DisposalOutcome.raisesInsufficient, h2]
    · simp [process_disposal, if_pos h1, if_neg h2,
        Section104Pool.remove_disposal, DisposalOutcome.raisesInsufficient, h2]
  · have h2 : ¬pool.pooled_qty < matchRemainder db sell := fun h =>
      h1 (lt_of_le_of_lt hp h)
    simp [process_disposal, if_neg h1, DisposalOutcome.raisesInsufficient, h2]

/-- Witness for C4 at Scenario E: a SELL of 150 with no same-day or
30-day matches against a pool holding 100. -/
theorem c4_insufficient_pool_iff_witness :
    (0 : ℚ) ≤ (Section104Pool.mk 100 1000).pooled_qty ∧
    ((process_disposal [⟨0, Side.SELL, 3, 150, 12, 0⟩]
        ⟨0, Side.SELL, 3, 150, 12, 0⟩ ⟨100, 1000⟩).raisesInsufficient = true ↔
      (Section104Pool.mk 100 1000).pooled_qty <
        matchRemainder [⟨0, Side.SELL, 3, 150, 12, 0⟩]
          ⟨0, Side.SELL, 3, 150, 12, 0⟩) :=
  ⟨by norm_num,
    c4_insufficient_pool_iff [⟨0, Side.SELL, 3, 150, 12, 0⟩]
      ⟨0, Side.SELL, 3, 150, 12, 0⟩ ⟨100, 1000⟩ (by norm_num)⟩

/-- Every entry the same-day loop emits is tagged `same_day` and carries
no disallowed amount. -/
theorem sameDayLoop_entries (sp : ℚ) (l : List Transaction) (r : ℚ) :
    ∀ mi ∈ (sameDayLoop sp l r).1,
      mi.kind = MatchKind.same_day ∧ mi.disallowed_loss = 0 := by
  induction l generalizing r with
  | nil => simp [sameDayLoop]
  | cons b bs ih =>
    intro mi hmi
    rw [sameDayLoop] at hmi
    by_cases hr : r ≤ 0
    · rw [if_pos hr] at hmi
      simp at hmi
    · rw [if_neg hr] at hmi
      simp only [List.mem_cons] at hmi
      rcases hmi with h | h
      · subst h
        exact ⟨rfl, rfl⟩
      · exact ih _ mi h

/-- Every entry the 30-day loop emits is tagged `thirty_day` and its
disallowed amount is the magnitude of its gain/loss when that is a loss
and zero otherwise. -/
theorem thirtyDayLoop_entries (tid : Nat) (sp : ℚ) (l : List Transaction)
    (r : ℚ) :
    ∀ mi ∈ (thirtyDayLoop tid sp l r).1,
      mi.kind = MatchKind.thirty_day ∧
      mi.disallowed_loss = if mi.gain_loss < 0 then |mi.gain_loss| else 0 := by
  induction l generalizing r with
  | nil => simp [thirtyDayLoop]
  | cons b bs ih =>
    intro mi hmi
    rw [thirtyDayLoop] at hmi
    by_cases hr : r ≤ 0
    · rw [if_pos hr] at hmi
      simp at hmi
    · rw [if_neg hr] at hmi
      simp only [List.mem_cons] at hmi
      rcases hmi with h | h
      · subst h
        exact ⟨rfl, rfl⟩
      · exact ih _ mi h

/-- Successful disposals report exactly the match entries computed by the
two matching phases. -/
theorem process_disposal_ok_matchInfos (db : List Transaction)
    (sell : Transaction) (pool pool2 : Section104Pool) (info : DisposalInfo)
    (recs : List DisposalMatch)
    (h : process_disposal db sell pool = .ok info recs pool2) :
    info.matchInfos = disposalMatchInfos db sell := by
  simp only [process_disposal] at h
  split at h
  · split at h
    · exact absurd h (by simp)
    · split at h
      · exact absurd h (by simp)
      · cases h
        rfl
  · cases h
    rfl

/-- C7: for every match entry of a processed disposal, a 30-day entry's
disallowed loss is `|gain_loss|` when the entry's gain/loss is negative
and `0` otherwise, and a same-day entry's disallowed loss is `0`
regardless of sign. -/
theorem c7_disallowance_sign (db : List Transaction) (sell : Transaction)
    (pool pool2 : Section104Pool) (info : DisposalInfo)
    (recs : List DisposalMatch) (mi : MatchInfo)
    (h : process_disposal db sell pool = .ok info recs pool2)
    (hmi : mi ∈ info.matchInfos) :
    (mi.kind = MatchKind.thirty_day →
      mi.disallowed_loss = if mi.gain_loss < 0 then |mi.gain_loss| else 0) ∧
    (mi.kind = MatchKind.same_day → mi.disallowed_loss = 0) := by
  rw [process_disposal_ok_matchInfos db sell pool pool2 info recs h,
    disposalMatchInfos] at hmi
  rcases List.mem_append.mp hmi with h1 | h1
  · obtain ⟨hk, hd⟩ := sameDayLoop_entries sell.price
      (find_same_day_matches db sell) sell.qty mi h1
    refine ⟨fun hk2 => ?_, fun _ => hd⟩
    rw [hk] at hk2
    simp at hk2
  · rw [thirtyDayPhase] at h1
    by_cases hpos : 0 < (sameDayPhase db sell).2
    · rw [if_pos hpos] at h1
      obtain ⟨hk, hd⟩ := thirtyDayLoop_entries sell.tid sell.price
        (find_thirty_day_matches db sell) (sameDayPhase db sell).2 mi h1
      refine ⟨fun _ => hd, fun hk2 => ?_⟩
      rw [hk] at hk2
      simp at hk2
    · rw [if_neg hpos] at h1
      simp at h1

/-- Witness for C7: a disposal with one same-day loss entry and one
30-day loss entry, instantiated at the 30-day entry. -/
theorem c7_disallowance_sign_witness :
    process_disposal
        [⟨0, Side.BUY, 0, 50, 125 / 10, 0⟩, ⟨1, Side.SELL, 0, 100, 12, 0⟩,
          ⟨2, Side.BUY, 10, 30, 13, 0⟩]
        ⟨1, Side.SELL, 0, 100, 12, 0⟩ ⟨100, 1000⟩ =
      DisposalOutcome.ok
        ⟨1, 100, 80, 20, some 10, -15, 30,
          [⟨MatchKind.same_day, 0, 25 / 2, 50, -25, 0⟩,
            ⟨MatchKind.thirty_day, 2, 13, 30, -30, 30⟩]⟩
        [⟨1, 2, 30, 30⟩] ⟨80, 800⟩ ∧
    (⟨MatchKind.thirty_day, 2, 13, 30, -30, 30⟩ : MatchInfo) ∈
      (⟨1, 100, 80, 20, some 10, -15, 30,
        [⟨MatchKind.same_day, 0, 25 / 2, 50, -25, 0⟩,
          ⟨MatchKind.thirty_day, 2, 13, 30, -30, 30⟩]⟩ : DisposalInfo).matchInfos ∧
    (((⟨MatchKind.thirty_day, 2, 13, 30, -30, 30⟩ : MatchInfo).kind =
        MatchKind.thirty_day →
      (⟨MatchKind.thirty_day, 2, 13, 30, -30, 30⟩ : MatchInfo).disallowed_loss =
        if (⟨MatchKind.thirty_day, 2, 13, 30, -30, 30⟩ : MatchInfo).gain_loss < 0
        then |(⟨MatchKind.thirty_day, 2, 13, 30, -30, 30⟩ : MatchInfo).gain_loss|
        else 0) ∧
     ((⟨MatchKind.thirty_day, 2, 13, 30, -30, 30⟩ : MatchInfo).kind =
        MatchKind.same_day →
      (⟨MatchKind.thirty_day, 2, 13, 30, -30, 30⟩ : MatchInfo).disallowed_loss =
        0)) := by
  have heq : process_disposal
      [⟨0, Side.BUY, 0, 50, 125 / 10, 0⟩, ⟨1, Side.SELL, 0, 100, 12, 0⟩,
        ⟨2, Side.BUY, 10, 30, 13, 0⟩]
      ⟨1, Side.SELL, 0, 100, 12, 0⟩ ⟨100, 1000⟩ =
      DisposalOutcome.ok
        ⟨1, 100, 80, 20, some 10, -15, 30,
          [⟨MatchKind.same_day, 0, 25 / 2, 50, -25, 0⟩,
            ⟨MatchKind.thirty_day, 2, 13, 30, -30, 30⟩]⟩
        [⟨1, 2, 30, 30⟩] ⟨80, 800⟩ := by
    norm_num [process_disposal, disposalMatchInfos, sameDayPhase,
      thirtyDayPhase, matchRemainder, sameDayLoop, thirtyDayLoop,
      find_same_day_matches, find_thirty_day_matches,
      Section104Pool.remove_disposal, Section104Pool.avg_cost,
      calculate_gain_loss, min_def, List.filter]
  exact ⟨heq, by simp,
    c7_disallowance_sign _ _ _ _ _ _ _ heq (by simp)⟩

end ApexCGT

namespace ApexCGT

/-- Accumulating the totals loop adds the positive allowable losses to
`gross_gains`. -/
theorem foldl_totalsStep_gross_gains (ds : List ReportDisposal)
    (t : ReportTotals) :
    (ds.foldl totalsStep t).gross_gains =
      t.gross_gains +
        (ds.map fun d =>
          if 0 < d.allowable_loss then d.allowable_loss else 0).sum := by
  induction ds generalizing t with
  | nil => simp
  | cons d ds ih =>
    rw [List.foldl_cons, ih]
    by_cases h : 0 < d.allowable_loss <;> (simp [totalsStep, h]; try ring)

/-- Accumulating the totals loop adds the magnitudes of the non-positive
allowable losses to `gross_losses`. -/
theorem foldl_totalsStep_gross_losses (ds : List ReportDisposal)
    (t : ReportTotals) :
    (ds.foldl totalsStep t).gross_losses =
      t.gross_losses +
        (ds.map fun d =>
          if 0 < d.allowable_loss then 0 else |d.allowable_loss|).sum := by
  induction ds generalizing t with
  | nil => simp
  | cons d ds ih =>
    rw [List.foldl_cons, ih]
    by_cases h : 0 < d.allowable_loss <;> (simp [totalsStep, h]; try ring)

/-- The totals loop never touches `taxable_gains`, `carry_forward_losses`
or `annual_exempt_amount`. -/
theorem foldl_totalsStep_fixed (ds : List ReportDisposal) (t : ReportTotals) :
    (ds.foldl totalsStep t).taxable_gains = t.taxable_gains ∧
    (ds.foldl totalsStep t).carry_forward_losses = t.carry_forward_losses ∧
    (ds.foldl totalsStep t).annual_exempt_amount = t.annual_exempt_amount := by
  induction ds generalizing t with
  | nil => exact ⟨rfl, rfl, rfl⟩
  | cons d ds ih =>
    rw [List.foldl_cons]
    exact ih (totalsStep t d)

/-- Gross gains of the totals dict are the sum of the positive allowable
losses. -/
theorem calculate_totals_gross_gains (aea : ℚ) (ds : List ReportDisposal) :
    (calculate_totals aea ds).gross_gains =
      (ds.map fun d =>
        if 0 < d.allowable_loss then d.allowable_loss else 0).sum := by
  simp only [calculate_totals]
  split <;> simp [foldl_totalsStep_gross_gains]

/-- Gross losses of the totals dict are the summed magnitudes of the
non-positive allowable losses. -/
theorem calculate_totals_gross_losses (aea : ℚ) (ds : List ReportDisposal) :
    (calculate_totals aea ds).gross_losses =
      (ds.map fun d =>
        if 0 < d.allowable_loss then 0 else |d.allowable_loss|).sum := by
  simp only [calculate_totals]
  split <;> simp [foldl_totalsStep_gross_losses]

/-- Net gains of the totals dict are gross gains minus gross losses. -/
theorem calculate_totals_net (aea : ℚ) (ds : List ReportDisposal) :
    (calculate_totals aea ds).net_gains =
      (calculate_totals aea ds).gross_gains -
        (calculate_totals aea ds).gross_losses := by
  simp only [calculate_totals]
  split <;> rfl

/-- The totals dict stores the configured Annual Exempt Amount. -/
theorem calculate_totals_aea (aea : ℚ) (ds : List ReportDisposal) :
    (calculate_totals aea ds).annual_exempt_amount = aea := by
  simp only [calculate_totals]
  split <;> exact (foldl_totalsStep_fixed ds _).2.2

/-- Taxable gains of the totals dict follow the Annual Exempt Amount
rule. -/
theorem calculate_totals_taxable (aea : ℚ) (ds : List ReportDisposal) :
    (calculate_totals aea ds).taxable_gains =
      (if 0 < (calculate_totals aea ds).net_gains
       then max 0 ((calculate_totals aea ds).net_gains - aea) else 0) := by
  simp only [calculate_totals]
  split
  · next h => simp [h]
  · next h => simp [h, (foldl_totalsStep_fixed ds _).1]

/-- Carried-forward losses of the totals dict follow the sign of net
gains. -/
theorem calculate_totals_carry (aea : ℚ) (ds : List ReportDisposal) :
    (calculate_totals aea ds).carry_forward_losses =
      (if 0 < (calculate_totals aea ds).net_gains then 0
       else |(calculate_totals aea ds).net_gains|) := by
  simp only [calculate_totals]
  split
  · next h => simp [h, (foldl_totalsStep_fixed ds _).2.1]
  · next h => simp [h]

/-- C6: the period totals calculator satisfies the claimed relations —
each disposal's `allowable_loss` is `gain_loss + disallowed_loss`;
`gross_gains` sums the positive allowable values and `gross_losses` the
magnitudes of the rest; `net_gains = gross_gains - gross_losses`;
`taxable_gains = max 0 (net_gains - annual_exempt_amount)` for positive
net gains and `0` otherwise; `carry_forward_losses = |net_gains|` for
non-positive net gains and `0` otherwise. -/
theorem c6_period_totals_spec (qty price : ℚ) (ms : List ReportMatch)
    (pool : Option Section104Pool) (aea : ℚ) (ds : List ReportDisposal) :
    (calculate_disposal_details qty price ms pool).allowable_loss =
      (calculate_disposal_details qty price ms pool).gain_loss +
        (calculate_disposal_details qty price ms pool).disallowed_loss ∧
    (calculate_totals aea ds).gross_gains =
      (ds.map fun d =>
        if 0 < d.allowable_loss then d.allowable_loss else 0).sum ∧
    (calculate_totals aea ds).gross_losses =
      (ds.map fun d =>
        if 0 < d.allowable_loss then 0 else |d.allowable_loss|).sum ∧
    (calculate_totals aea ds).net_gains =
      (calculate_totals aea ds).gross_gains -
        (calculate_totals aea ds).gross_losses ∧
    (calculate_totals aea ds).annual_exempt_amount = aea ∧
    (calculate_totals aea ds).taxable_gains =
      (if 0 < (calculate_totals aea ds).net_gains
       then max 0 ((calculate_totals aea ds).net_gains - aea) else 0) ∧
    (calculate_totals aea ds).carry_forward_losses =
      (if 0 < (calculate_totals aea ds).net_gains then 0
       else |(calculate_totals aea ds).net_gains|) :=
  ⟨rfl, calculate_totals_gross_gains aea ds, calculate_totals_gross_losses aea ds,
    calculate_totals_net aea ds, calculate_totals_aea aea ds,
    calculate_totals_taxable aea ds, calculate_totals_carry aea ds⟩

/-- C8: under the database enumeration order, the same-day candidates are
exactly the holding's BUY rows sharing the disposal's trade date
(excluding the disposal itself) listed in creation order, and the 30-day
candidates are exactly the BUY rows with
`sell.trade_date < trade_date ≤ sell.trade_date + 30` listed by ascending
trade date with creation order as tiebreak; the loops then consume each
list front to back. -/
theorem c8_candidate_selection (db : List Transaction) (sell t : Transaction)
    (hdb : DBSorted db) :
    (t ∈ find_same_day_matches db sell ↔
      t ∈ db ∧ t.side = Side.BUY ∧ t.trade_date = sell.trade_date ∧
        t.tid ≠ sell.tid) ∧
    (find_same_day_matches db sell).Pairwise (fun a b => a.tid < b.tid) ∧
    (t ∈ find_thirty_day_matches db sell ↔
      t ∈ db ∧ t.side = Side.BUY ∧ sell.trade_date < t.trade_date ∧
        t.trade_date ≤ sell.trade_date + 30) ∧
    (find_thirty_day_matches db sell).Pairwise (fun a b =>
      a.trade_date < b.trade_date ∨
        (a.trade_date = b.trade_date ∧ a.tid < b.tid)) := by
  refine ⟨?_, ?_, ?_, ?_⟩
  · simp [find_same_day_matches, List.mem_filter, and_assoc]
  · have h1 : (find_same_day_matches db sell).Pairwise (fun a b =>
        a.trade_date < b.trade_date ∨
          (a.trade_date = b.trade_date ∧ a.tid < b.tid)) :=
      List.Pairwise.filter _ hdb
    have h2 : ∀ a ∈ find_same_day_matches db sell,
        a.trade_date = sell.trade_date := by
      intro a ha
      have := (List.mem_filter.mp ha).2
      simp only [decide_eq_true_eq] at this
      exact this.2.1
    refine List.Pairwise.imp_of_mem ?_ h1
    intro a b ha hb hab
    rcases hab with hlt | heq
    · rw [h2 a ha, h2 b hb] at hlt
      exact absurd hlt (lt_irrefl _)
    · exact heq.2
  · simp [find_thirty_day_matches, List.mem_filter, and_assoc]
  · exact List.Pairwise.filter _ hdb

/-- Witness for C8 at a four-row table sorted by (trade date, id),
instantiated at the 30-day candidate row. -/
theorem c8_candidate_selection_witness :
    DBSorted
        [⟨0, Side.BUY, 1, 100, 10, 0⟩, ⟨1, Side.BUY, 5, 50, 11, 0⟩,
          ⟨2, Side.SELL, 5, 60, 12, 0⟩, ⟨3, Side.BUY, 20, 40, 9, 0⟩] ∧
    ((⟨3, Side.BUY, 20, 40, 9, 0⟩ : Transaction) ∈
        find_same_day_matches
          [⟨0, Side.BUY, 1, 100, 10, 0⟩, ⟨1, Side.BUY, 5, 50, 11, 0⟩,
            ⟨2, Side.SELL, 5, 60, 12, 0⟩, ⟨3, Side.BUY, 20, 40, 9, 0⟩]
          ⟨2, Side.SELL, 5, 60, 12, 0⟩ ↔
      (⟨3, Side.BUY, 20, 40, 9, 0⟩ : Transaction) ∈
          [⟨0, Side.BUY, 1, 100, 10, 0⟩, ⟨1, Side.BUY, 5, 50, 11, 0⟩,
            ⟨2, Side.SELL, 5, 60, 12, 0⟩, ⟨3, Side.BUY, 20, 40, 9, 0⟩] ∧
        (⟨3, Side.BUY, 20, 40, 9, 0⟩ : Transaction).side = Side.BUY ∧
        (⟨3, Side.BUY, 20, 40, 9, 0⟩ : Transaction).trade_date =
          (⟨2, Side.SELL, 5, 60, 12, 0⟩ : Transaction).trade_date ∧
        (⟨3, Side.BUY, 20, 40, 9, 0⟩ : Transaction).tid ≠
          (⟨2, Side.SELL, 5, 60, 12, 0⟩ : Transaction).tid) ∧
    (find_same_day_matches
        [⟨0, Side.BUY, 1, 100, 10, 0⟩, ⟨1, Side.BUY, 5, 50, 11, 0⟩,
          ⟨2, Side.SELL, 5, 60, 12, 0⟩, ⟨3, Side.BUY, 20, 40, 9, 0⟩]
        ⟨2, Side.SELL, 5, 60, 12, 0⟩).Pairwise (fun a b => a.tid < b.tid) ∧
    ((⟨3, Side.BUY, 20, 40, 9, 0⟩ : Transaction) ∈
        find_thirty_day_matches
          [⟨0, Side.BUY, 1, 100, 10, 0⟩, ⟨1, Side.BUY, 5, 50, 11, 0⟩,
            ⟨2, Side.SELL, 5, 60, 12, 0⟩, ⟨3, Side.BUY, 20, 40, 9, 0⟩]
          ⟨2, Side.SELL, 5, 60, 12, 0⟩ ↔
      (⟨3, Side.BUY, 20, 40, 9, 0⟩ : Transaction) ∈
          [⟨0, Side.BUY, 1, 100, 10, 0⟩, ⟨1, Side.BUY, 5, 50, 11, 0⟩,
            ⟨2, Side.SELL, 5, 60, 12, 0⟩, ⟨3, Side.BUY, 20, 40, 9, 0⟩] ∧
        (⟨3, Side.BUY, 20, 40, 9, 0⟩ : Transaction).side = Side.BUY ∧
        (⟨2, Side.SELL, 5, 60, 12, 0⟩ : Transaction).trade_date <
          (⟨3, Side.BUY, 20, 40, 9, 0⟩ : Transaction).trade_date ∧
        (⟨3, Side.BUY, 20, 40, 9, 0⟩ : Transaction).trade_date ≤
          (⟨2, Side.SELL, 5, 60, 12, 0⟩ : Transaction).trade_date + 30) ∧
    (find_thirty_day_matches
        [⟨0, Side.BUY, 1, 100, 10, 0⟩, ⟨1, Side.BUY, 5, 50, 11, 0⟩,
          ⟨2, Side.SELL, 5, 60, 12, 0⟩, ⟨3, Side.BUY, 20, 40, 9, 0⟩]
        ⟨2, Side.SELL, 5, 60, 12, 0⟩).Pairwise (fun a b =>
      a.trade_date < b.trade_date ∨
        (a.trade_date = b.trade_date ∧ a.tid < b.tid)) :=
  ⟨by decide,
    c8_candidate_selection
      [⟨0, Side.BUY, 1, 100, 10, 0⟩, ⟨1, Side.BUY, 5, 50, 11, 0⟩,
        ⟨2, Side.SELL, 5, 60, 12, 0⟩, ⟨3, Side.BUY, 20, 40, 9, 0⟩]
      ⟨2, Side.SELL, 5, 60, 12, 0⟩ ⟨3, Side.BUY, 20, 40, 9, 0⟩ (by decide)⟩

end ApexCGT

namespace ApexCGT

/-- A successful disposal leaves the pool quantity lowered by exactly the
disposal's Section 104 portion, which is determined by the transaction
table alone. -/
theorem process_disposal_ok_pool_qty (db : List Transaction)
    (sell : Transaction) (pool pool2 : Section104Pool) (info : DisposalInfo)
    (recs : List DisposalMatch)
    (h : process_disposal db sell pool = .ok info recs pool2) :
    pool2.pooled_qty = pool.pooled_qty - poolRemoval db sell := by
  simp only [process_disposal] at h
  split at h
  · next hpos =>
    split at h
    · exact absurd h (by simp)
    · next hfit =>
      split at h
      · exact absurd h (by simp)
      · next avg pool3 heq =>
        cases h
        rw [Section104Pool.remove_disposal, if_neg hfit] at heq
        cases heq
        simp [poolRemoval, if_pos hpos]
  · next hpos =>
    cases h
    simp [poolRemoval, if_neg hpos]

/-- Across a replay the pool quantity changes by the sum of the per-
transaction deltas of the processed suffix. -/
theorem replayAux_ok_pool_qty (db : List Transaction) (l : List Transaction)
    (s s2 : EngineState) (h : replayAux db l s = .ok s2) :
    s2.pool.pooled_qty = s.pool.pooled_qty + qtyDelta db l := by
  induction l generalizing s with
  | nil =>
    cases h
    simp [qtyDelta]
  | cons t rest ih =>
    rw [replayAux] at h
    split at h
    · next hside =>
      rw [ih _ h]
      simp [qtyDelta, hside, Section104Pool.add_purchase]
      ring
    · next hside =>
      split at h
      · next info recs pool2 heq =>
        rw [ih _ h]
        simp only [EngineState.pool]
        rw [process_disposal_ok_pool_qty db t s.pool pool2 info recs heq]
        simp [qtyDelta, hside]
        ring
      · exact absurd h (by simp)

/-- C9 (amended): the final pool of a successful replay is the initial
pool shifted by a delta that depends only on the transaction table —
`process_transactions_for_holding` is a function of the table and the
pre-existing pool `get_or_create` hands it, and two replays from equal
initial pool states coincide, but a rerun that starts from the pool the
first run persisted shifts it by the same delta again. -/
theorem c9_replay_pool_delta (db : List Transaction)
    (pool0 : Section104Pool) (s : EngineState)
    (h : process_transactions_for_holding db pool0 = .ok s) :
    s.pool.pooled_qty = pool0.pooled_qty + qtyDelta db db := by
  have h2 := replayAux_ok_pool_qty db db ⟨pool0, [], []⟩ s h
  simpa using h2

/-- Witness for C9 (amended) at a one-BUY table. -/
theorem c9_replay_pool_delta_witness :
    process_transactions_for_holding [⟨0, Side.BUY, 1, 100, 10, 0⟩] ⟨0, 0⟩ =
      ReplayOutcome.ok ⟨⟨100, 1000⟩, [], []⟩ ∧
    (EngineState.mk ⟨100, 1000⟩ [] []).pool.pooled_qty =
      (Section104Pool.mk 0 0).pooled_qty +
        qtyDelta [⟨0, Side.BUY, 1, 100, 10, 0⟩] [⟨0, Side.BUY, 1, 100, 10, 0⟩] := by
  have heq : process_transactions_for_holding
      [⟨0, Side.BUY, 1, 100, 10, 0⟩] ⟨0, 0⟩ =
      ReplayOutcome.ok ⟨⟨100, 1000⟩, [], []⟩ := by
    norm_num [process_transactions_for_holding, replayAux,
      Section104Pool.add_purchase]
  exact ⟨heq, c9_replay_pool_delta [⟨0, Side.BUY, 1, 100, 10, 0⟩] ⟨0, 0⟩
    ⟨⟨100, 1000⟩, [], []⟩ heq⟩

/-- C9 counterexample: invoking `process_transactions_for_holding` a
second time is not idempotent, because `get_or_create` hands the replay
the pool persisted by the first run instead of a reset one — after a
first run over a single BUY of 100 ends with pool quantity 100, running
the same table again starts from that pool and ends at 200. -/
theorem c9_rerun_not_identical :
    process_transactions_for_holding [⟨0, Side.BUY, 1, 100, 10, 0⟩] ⟨0, 0⟩ =
      ReplayOutcome.ok ⟨⟨100, 1000⟩, [], []⟩ ∧
    process_transactions_for_holding [⟨0, Side.BUY, 1, 100, 10, 0⟩]
        ⟨100, 1000⟩ =
      ReplayOutcome.ok ⟨⟨200, 2000⟩, [], []⟩ ∧
    ReplayOutcome.ok (EngineState.mk ⟨200, 2000⟩ [] []) ≠
      ReplayOutcome.ok (EngineState.mk ⟨100, 1000⟩ [] []) := by
  refine ⟨?_, ?_, ?_⟩
  · norm_num [process_transactions_for_holding, replayAux,
      Section104Pool.add_purchase]
  · norm_num [process_transactions_for_holding, replayAux,
      Section104Pool.add_purchase]
  · simp

end ApexCGT

namespace ApexCGT

@[simp] theorem scrubTx_tid (t : Transaction) : (scrubTx t).tid = t.tid := by
  unfold scrubTx
  split <;> rfl

@[simp] theorem scrubTx_side (t : Transaction) : (scrubTx t).side = t.side := by
  unfold scrubTx
  split <;> simp_all

@[simp] theorem scrubTx_trade_date (t : Transaction) :
    (scrubTx t).trade_date = t.trade_date := by
  unfold scrubTx
  split <;> rfl

@[simp] theorem scrubTx_qty (t : Transaction) : (scrubTx t).qty = t.qty := by
  unfold scrubTx
  split <;> rfl

@[simp] theorem scrubTx_price (t : Transaction) :
    (scrubTx t).price = t.price := by
  unfold scrubTx
  split <;> rfl

/-- Scrubbing SELL fees commutes with the same-day candidate query. -/
theorem find_same_day_scrub (db : List Transaction) (sell : Transaction) :
    find_same_day_matches (scrubSellFees db) (scrubTx sell) =
      (find_same_day_matches db sell).map scrubTx := by
  unfold find_same_day_matches scrubSellFees
  rw [List.filter_map]
  congr 1
  refine List.filter_congr fun t _ => ?_
  simp

/-- Scrubbing SELL fees commutes with the 30-day candidate query. -/
theorem find_thirty_day_scrub (db : List Transaction) (sell : Transaction) :
    find_thirty_day_matches (scrubSellFees db) (scrubTx sell) =
      (find_thirty_day_matches db sell).map scrubTx := by
  unfold find_thirty_day_matches scrubSellFees
  rw [List.filter_map]
  congr 1
  refine List.filter_congr fun t _ => ?_
  simp

/-- The same-day loop reads only fields scrubbing preserves. -/
theorem sameDayLoop_scrub (sp : ℚ) (l : List Transaction) (r : ℚ) :
    sameDayLoop sp (l.map scrubTx) r = sameDayLoop sp l r := by
  induction l generalizing r with
  | nil => rfl
  | cons b bs ih =>
    rw [List.map_cons, sameDayLoop, sameDayLoop]
    by_cases hr : r ≤ 0
    · rw [if_pos hr, if_pos hr]
    · rw [if_neg hr, if_neg hr]
      simp [ih]

/-- The 30-day loop reads only fields scrubbing preserves. -/
theorem thirtyDayLoop_scrub (tid : Nat) (sp : ℚ) (l : List Transaction)
    (r : ℚ) :
    thirtyDayLoop tid sp (l.map scrubTx) r = thirtyDayLoop tid sp l r := by
  induction l generalizing r with
  | nil => rfl
  | cons b bs ih =>
    rw [List.map_cons, thirtyDayLoop, thirtyDayLoop]
    by_cases hr : r ≤ 0
    · rw [if_pos hr, if_pos hr]
    · rw [if_neg hr, if_neg hr]
      simp [ih]

/-- Disposal processing is unchanged by scrubbing SELL fees from the
table and the disposal. -/
theorem process_disposal_scrub (db : List Transaction) (sell : Transaction)
    (pool : Section104Pool) :
    process_disposal (scrubSellFees db) (scrubTx sell) pool =
      process_disposal db sell pool := by
  have h1 : sameDayPhase (scrubSellFees db) (scrubTx sell) =
      sameDayPhase db sell := by
    unfold sameDayPhase
    rw [find_same_day_scrub, scrubTx_price, scrubTx_qty, sameDayLoop_scrub]
  have h2 : thirtyDayPhase (scrubSellFees db) (scrubTx sell) =
      thirtyDayPhase db sell := by
    unfold thirtyDayPhase
    rw [h1, find_thirty_day_scrub, scrubTx_tid, scrubTx_price,
      thirtyDayLoop_scrub]
  unfold process_disposal matchRemainder disposalMatchInfos
  rw [h1, h2, scrubTx_tid, scrubTx_qty, scrubTx_price]

/-- The replay loop is unchanged by scrubbing SELL fees. -/
theorem replayAux_scrub (db : List Transaction) (l : List Transaction)
    (s : EngineState) :
    replayAux (scrubSellFees db) (l.map scrubTx) s = replayAux db l s := by
  induction l generalizing s with
  | nil => rfl
  | cons t rest ih =>
    rw [List.map_cons, replayAux, replayAux]
    cases hside : t.side
    · have hb : scrubTx t = t := by
        unfold scrubTx
        rw [hside]
      rw [hb, hside]
      simp only []
      rw [ih]
    · have hs2 : (scrubTx t).side = Side.SELL := by
        rw [scrubTx_side, hside]
      rw [hs2]
      simp only []
      rw [process_disposal_scrub]
      cases hpd : process_disposal db t s.pool
      · simp only []
        rw [ih]
      · rfl

/-- A holding replay is unchanged by scrubbing SELL fees from its table. -/
theorem process_holding_scrub (db : List Transaction)
    (pool : Section104Pool) :
    process_transactions_for_holding (scrubSellFees db) pool =
      process_transactions_for_holding db pool := by
  unfold process_transactions_for_holding
  have h := replayAux_scrub db db ⟨pool, [], []⟩
  rw [← h]
  rfl

/-- C10: SELL fees have no effect on any engine output — two tables with
the same scrub (equal except for the `fees` of SELL rows, which the
engine never reads) replay to identical outcomes: identical matches,
gains/losses, disallowed losses and final pool state. -/
theorem c10_sell_fees_no_effect (db1 db2 : List Transaction)
    (pool : Section104Pool) (h : scrubSellFees db1 = scrubSellFees db2) :
    process_transactions_for_holding db1 pool =
      process_transactions_for_holding db2 pool := by
  rw [← process_holding_scrub db1 pool, ← process_holding_scrub db2 pool, h]

/-- Witness for C10: two tables differing only in the SELL row's fees
(3.00 versus 9.00). -/
theorem c10_sell_fees_no_effect_witness :
    scrubSellFees
        [⟨0, Side.BUY, 1, 100, 10, 2⟩, ⟨1, Side.SELL, 2, 40, 12, 3⟩] =
      scrubSellFees
        [⟨0, Side.BUY, 1, 100, 10, 2⟩, ⟨1, Side.SELL, 2, 40, 12, 9⟩] ∧
    process_transactions_for_holding
        [⟨0, Side.BUY, 1, 100, 10, 2⟩, ⟨1, Side.SELL, 2, 40, 12, 3⟩] ⟨0, 0⟩ =
      process_transactions_for_holding
        [⟨0, Side.BUY, 1, 100, 10, 2⟩, ⟨1, Side.SELL, 2, 40, 12, 9⟩] ⟨0, 0⟩ :=
  ⟨by simp [scrubSellFees, scrubTx],
    c10_sell_fees_no_effect
      [⟨0, Side.BUY, 1, 100, 10, 2⟩, ⟨1, Side.SELL, 2, 40, 12, 3⟩]
      [⟨0, Side.BUY, 1, 100, 10, 2⟩, ⟨1, Side.SELL, 2, 40, 12, 9⟩]
      ⟨0, 0⟩ (by simp [scrubSellFees, scrubTx])⟩

end ApexCGT
